import Mathlib

/-!
Shallow embedding of `src/server.py` (Universal Search Assistant).

The program exposes one operation, `search_web(query, max_results=5)`:
it queries FireCrawl, falls back to Tavily when FireCrawl raises or
yields no usable records, formats the records into a context block and
a citation block, asks a completion endpoint for an answer, and returns
the trimmed answer concatenated with the citation block — or a fixed
diagnostic message when both providers yield nothing.

External HTTP calls are modelled as oracle functions in an `Env`
structure; exceptions raised by a call are modelled as `Except.error`.
Python strings are sequences of code points, so slicing `s[:n]` is
`List.take` on `String.data`. The embedding also returns a `Trace`
recording which providers were called and with which arguments.
-/

/-- One hit object of a FireCrawl response (`search_result.data` items).
Fields are optional: `getattr(result, f, None)` yields `none` when the
attribute is absent; Python's `or` additionally treats `""` as falsy. -/
structure Hit where
  title : Option String
  url : Option String
  markdown : Option String
  content : Option String
deriving Repr, DecidableEq

/-- A FireCrawl response object. `data = none` models a response without
a (truthy, list-valued) `data` attribute (lines 61-63 of server.py). -/
structure FCResponse where
  data : Option (List Hit)
deriving Repr, DecidableEq

/-- One Tavily result dictionary. `none` models an absent key, so
`result.get(k, default)` is `Option.getD`. -/
structure TavHit where
  title : Option String
  url : Option String
  content : Option String
deriving Repr, DecidableEq

/-- A Tavily response: `search_result.get('results', [])`. -/
structure TavResponse where
  results : Option (List TavHit)
deriving Repr, DecidableEq

/-- The uniform record both adapters produce: a dict with keys
`title`, `url`, `content`, always all present (lines 31-35, 71-75). -/
structure SearchRecord where
  title : String
  url : String
  content : String
deriving Repr, DecidableEq

/-- The three external endpoints, as oracles for one invocation.
`fc` takes the query only (line 59: `firecrawl_app.search(query)`);
`tavily` takes query and max_results (lines 22-27); `completion` takes
the user prompt (lines 149-157) and returns the generated text. -/
structure Env where
  fc : String → Except String FCResponse
  tavily : String → Int → Except String TavResponse
  completion : String → Except String String

/-- Call log of one `search_web` invocation: the arguments passed to
each external endpoint, in order of call. -/
structure Trace where
  fcArgs : List String
  tavilyArgs : List (String × Int)
  completionArgs : List String
deriving Repr, DecidableEq

deriving instance DecidableEq for Except

/-- Python `x or default` for an optional string: `None` and `""` are
falsy. -/
def pyOr (a : Option String) (b : String) : String :=
  match a with
  | some s => if s = "" then b else s
  | none => b

/-- Python truthiness of an optional string, keeping the value. -/
def pyTruthy (a : Option String) : Option String :=
  match a with
  | some "" => none
  | x => x

/-- Python `s[:n]` for `n ≥ 0`, over code points. -/
def strTake (s : String) (n : Nat) : String :=
  ⟨s.data.take n⟩

/-- The characters Python `str.strip()` removes (ASCII whitespace). -/
def pyIsSpace (c : Char) : Bool :=
  c = ' ' || c = '\t' || c = '\n' || c = '\r' || c = '\x0b' || c = '\x0c'

/-- Python `s.strip()`: drop whitespace from both ends. -/
def pyStrip (s : String) : String :=
  ⟨((s.data.dropWhile pyIsSpace).reverse.dropWhile pyIsSpace).reverse⟩

/-- Python `l[:k]` for an arbitrary (possibly negative) int `k`:
`l[:k] = l[:max(len(l)+k, 0)]` when `k < 0`. -/
def pyTake {α : Type} (l : List α) (k : Int) : List α :=
  if 0 ≤ k then l.take k.toNat else l.take (l.length + k).toNat

/-- Field extraction for one FireCrawl hit (lines 65-67):
`title = getattr(result,'title',None) or 'No title'`, same for url;
`content = getattr(result,'markdown',None) or getattr(result,'content',None) or 'No content'`. -/
def fcExtract (h : Hit) : SearchRecord :=
  { title := pyOr h.title "No title"
    url := pyOr h.url "No URL"
    content :=
      match pyTruthy h.markdown with
      | some s => s
      | none => pyOr h.content "No content" }

/-- The retention test of line 70:
`title != 'No title' or url != 'No URL' or (content and content != 'No content' and len(content) > 10)`. -/
def fcQualifies (h : Hit) : Bool :=
  let r := fcExtract h
  r.title != "No title" || r.url != "No URL" ||
    (r.content != "" && r.content != "No content" && r.content.length > 10)

/-- Records the FireCrawl block produces from a successful response
(lines 61-75): nothing unless `data` is a truthy list, else the
qualifying hits in order. -/
def fcRecords (resp : FCResponse) : List SearchRecord :=
  match resp.data with
  | none => []
  | some hits =>
    if hits.isEmpty then []
    else (hits.filter fcQualifies).map fcExtract

/-- The whole FireCrawl try/except (lines 57-81): an exception from the
provider call is caught and leaves `results` empty. -/
def fcResultsOf (x : Except String FCResponse) : List SearchRecord :=
  match x with
  | .error _ => []
  | .ok resp => fcRecords resp

/-- Number of qualifying hits in a FireCrawl call outcome (zero when
the call raised or the response has no data list). -/
def fcQualifyingCount (x : Except String FCResponse) : Nat :=
  match x with
  | .error _ => 0
  | .ok resp => (resp.data.getD []).countP fcQualifies

/-- Normalization of one Tavily hit (lines 31-35): plain `dict.get`
with defaults, no truthiness coercion and no quality filter. -/
def tavExtract (h : TavHit) : SearchRecord :=
  { title := h.title.getD "No title"
    url := h.url.getD "No URL"
    content := h.content.getD "No content" }

/-- `search_with_tavily` (lines 18-40): on success, every entry of
`search_result.get('results', [])` is normalized and kept; any
exception is caught and yields `[]`. `query` and `max_results` are
forwarded to the client call, which the oracle outcome already
reflects. -/
def search_with_tavily (outcome : Except String TavResponse)
    (query : String) (max_results : Int) : List SearchRecord :=
  match outcome with
  | .ok resp => (resp.results.getD []).map tavExtract
  | .error _ => []

/-- Result of the provider-selection phase (lines 53-89): the record
list, the `search_method_used` label, and the Tavily call log. -/
structure Outcome where
  results : List SearchRecord
  search_method_used : String
  tavilyArgs : List (String × Int)
deriving Repr, DecidableEq

/-- Lines 53-89 of `search_web`: try FireCrawl; if it produced no
records, call Tavily once with the original query and max_results;
`search_method_used` starts as "Unknown" and is set only when the
corresponding adapter produced at least one record. -/
def searchOutcome (env : Env) (query : String) (max_results : Int) : Outcome :=
  let fcRes := fcResultsOf (env.fc query)
  if fcRes.isEmpty then
    let tavRes := search_with_tavily (env.tavily query max_results) query max_results
    { results := tavRes
      search_method_used := if tavRes.isEmpty then "Unknown" else "Tavily"
      tavilyArgs := [(query, max_results)] }
  else
    { results := fcRes
      search_method_used := "FireCrawl"
      tavilyArgs := [] }

/-- The fixed diagnostic message of lines 93-108, with the query
interpolated by the f-string. -/
def diagMessage (query : String) : String :=
  "I was unable to find search results for \"" ++ query ++
  "\" using available search providers (FireCrawl, Tavily). This could be due to:\n" ++
  "1. API limitations or issues\n" ++
  "2. The query being too specific or recent\n" ++
  "3. Network connectivity issues\n\n" ++
  "Please try:\n" ++
  "- Rephrasing your query\n" ++
  "- Checking your internet connection\n" ++
  "- Verifying your API keys are configured correctly\n" ++
  "- Trying again in a few minutes\n\n" ++
  "For ManCity match information specifically, I recommend checking:\n" ++
  "- Official Manchester City FC website\n" ++
  "- BBC Sport\n" ++
  "- ESPN\n" ++
  "- Sky Sports"

/-- The truncation of lines 118-120: content longer than 1500 code
points is cut to 1500 and suffixed with "...". -/
def truncateContent (content : String) : String :=
  if content.length > 1500 then strTake content 1500 ++ "..." else content

/-- One context entry (lines 122-124). -/
def contextEntry (i : Nat) (r : SearchRecord) : String :=
  "[" ++ toString i ++ "] Source: " ++ r.url ++ "\n" ++
  " Title: " ++ r.title ++ "\n" ++
  " Content: " ++ truncateContent r.content ++ "\n\n"

/-- One citation line (line 131). -/
def citationLine (i : Nat) (r : SearchRecord) : String :=
  "[" ++ toString i ++ "] " ++ r.title ++ " - " ++ r.url ++ "\n"

/-- `enumerate(results[:max_results], 1)` — the record/index pairs both
formatting loops (lines 113 and 128) iterate over. -/
def includedEntries (records : List SearchRecord) (max_results : Int) :
    List (Nat × SearchRecord) :=
  (pyTake records max_results).enumFrom 1

/-- The context block of lines 111-124. -/
def formatContext (prov : String) (records : List SearchRecord)
    (max_results : Int) : String :=
  "Search results (via " ++ prov ++ "):\n" ++
    String.join ((includedEntries records max_results).map
      fun p => contextEntry p.1 p.2)

/-- The citation block of lines 127-131, including its leading
blank-line separator. -/
def formatSources (prov : String) (records : List SearchRecord)
    (max_results : Int) : String :=
  "\n\nSources (via " ++ prov ++ "):\n" ++
    String.join ((includedEntries records max_results).map
      fun p => citationLine p.1 p.2)

/-- The prompt template of lines 134-146. -/
def buildPrompt (query context prov : String) : String :=
  "You are a helpful research assistant that provides accurate, concise, and well-sourced answers.\n" ++
  "Using the search results below, provide a comprehensive answer to the query: \"" ++ query ++ "\"\n\n" ++
  context ++ "\n\n" ++
  "Instructions:\n" ++
  "1. Provide a clear, well-structured answer\n" ++
  "2. Cite sources using the numbered references above\n" ++
  "3. If the search results don\x27t contain relevant information, state this clearly\n" ++
  "4. Keep the answer focused and avoid speculation\n" ++
  "5. Note that results were obtained via " ++ prov ++ "\n\n" ++
  "Answer:"

/-- `search_web` (lines 46-164): provider selection, then either the
diagnostic message (empty results, completion never called) or the
trimmed completion text concatenated with the citation block; an
exception from the completion call propagates. -/
def searchWeb (env : Env) (query : String) (max_results : Int) :
    Except String String × Trace :=
  let o := searchOutcome env query max_results
  if o.results.isEmpty then
    (.ok (diagMessage query),
     { fcArgs := [query], tavilyArgs := o.tavilyArgs, completionArgs := [] })
  else
    let context := formatContext o.search_method_used o.results max_results
    let sources := formatSources o.search_method_used o.results max_results
    let prompt := buildPrompt query context o.search_method_used
    match env.completion prompt with
    | .ok text =>
        (.ok (pyStrip text ++ sources),
         { fcArgs := [query], tavilyArgs := o.tavilyArgs,
           completionArgs := [prompt] })
    | .error e =>
        (.error e,
         { fcArgs := [query], tavilyArgs := o.tavilyArgs,
           completionArgs := [prompt] })

/-! ## Helper lemmas -/

theorem strLength_mk (l : List Char) : (String.mk l).length = l.length :=
  rfl

theorem strData_append (s t : String) : (s ++ t).data = s.data ++ t.data :=
  rfl

theorem strLength_append (s t : String) : (s ++ t).length = s.length + t.length := by
  show (s ++ t).data.length = s.data.length + t.data.length
  rw [strData_append, List.length_append]

theorem strAppend_assoc (a b c : String) : a ++ b ++ c = a ++ (b ++ c) := by
  cases a with
  | mk la =>
    cases b with
    | mk lb =>
      cases c with
      | mk lc =>
        show String.mk (la ++ lb ++ lc) = String.mk (la ++ (lb ++ lc))
        rw [List.append_assoc]

theorem length_strTake (s : String) (n : Nat) :
    (strTake s n).length = min n s.length := by
  show (s.data.take n).length = min n s.data.length
  rw [List.length_take]

/-- The FireCrawl block leaves `results` empty precisely when the call
raised or no hit qualifies. -/
theorem fcResultsOf_eq_nil_iff (x : Except String FCResponse) :
    fcResultsOf x = [] ↔ (∃ e, x = .error e) ∨ fcQualifyingCount x = 0 := by
  cases x with
  | error e => simp [fcResultsOf, fcQualifyingCount]
  | ok resp =>
    simp only [fcResultsOf, fcQualifyingCount]
    cases hd : resp.data with
    | none => simp [fcRecords, hd]
    | some hits =>
      simp only [fcRecords, hd, Option.getD_some]
      by_cases he : hits.isEmpty
      · rw [if_pos he]
        rw [List.isEmpty_iff] at he
        subst he
        simp
      · rw [if_neg he]
        simp [List.countP_eq_zero, List.filter_eq_nil_iff]

/-- Unfolding of `searchOutcome` when FireCrawl produced records. -/
theorem searchOutcome_of_fc (env : Env) (query : String) (maxr : Int)
    (h : fcResultsOf (env.fc query) ≠ []) :
    searchOutcome env query maxr =
      { results := fcResultsOf (env.fc query)
        search_method_used := "FireCrawl"
        tavilyArgs := [] } := by
  rw [searchOutcome]
  rw [if_neg (by simpa [List.isEmpty_iff] using h)]

/-- Unfolding of `searchOutcome` when FireCrawl produced nothing. -/
theorem searchOutcome_of_tav (env : Env) (query : String) (maxr : Int)
    (h : fcResultsOf (env.fc query) = []) :
    searchOutcome env query maxr =
      { results := search_with_tavily (env.tavily query maxr) query maxr
        search_method_used :=
          if (search_with_tavily (env.tavily query maxr) query maxr).isEmpty
          then "Unknown" else "Tavily"
        tavilyArgs := [(query, maxr)] } := by
  rw [searchOutcome]
  rw [if_pos (by simpa [List.isEmpty_iff] using h)]

/-- The trace always logs one FireCrawl call with the query alone, and
the Tavily log of the selection phase. -/
theorem searchWeb_trace (env : Env) (query : String) (maxr : Int) :
    (searchWeb env query maxr).2.fcArgs = [query] ∧
    (searchWeb env query maxr).2.tavilyArgs = (searchOutcome env query maxr).tavilyArgs := by
  simp only [searchWeb]
  split
  · exact ⟨rfl, rfl⟩
  · split <;> exact ⟨rfl, rfl⟩

/-! ## Claims -/

/-- C2: for any record content string of length L processed by the
formatter, L ≤ 1500 keeps the content verbatim, while L > 1500 yields
the first 1500 characters followed by "..." — in particular always
exactly 1503 characters of output in the truncated case. -/
theorem C2_content_truncation (content : String) :
    (content.length ≤ 1500 → truncateContent content = content) ∧
    (1500 < content.length →
      truncateContent content = strTake content 1500 ++ "..." ∧
      (truncateContent content).length = 1503) := by
  constructor
  · intro h
    rw [truncateContent, if_neg (by omega)]
  · intro h
    have hc : truncateContent content = strTake content 1500 ++ "..." := by
      rw [truncateContent, if_pos (by omega)]
    refine ⟨hc, ?_⟩
    rw [hc, strLength_append, length_strTake]
    have : min 1500 content.length = 1500 := Nat.min_eq_left (Nat.le_of_lt h)
    rw [this]
    decide

def longContent : String := ⟨List.replicate 1501 'a'⟩

/-- Witness for C2 at a 5-character content and a 1501-character content. -/
theorem C2_content_truncation_witness :
    truncateContent "short" = "short" ∧
    truncateContent longContent = strTake longContent 1500 ++ "..." ∧
    (truncateContent longContent).length = 1503 :=
  ⟨(C2_content_truncation "short").1 (by decide),
   (C2_content_truncation longContent).2
     (by show 1500 < (List.replicate 1501 'a').length
         rw [List.length_replicate]
         decide)⟩

/-- C3: with 1 ≤ max_results < M records, both formatting loops run
over exactly the first max_results records, 1-indexed in original
order; later records appear in neither block. -/
theorem C3_first_max_results (prov : String) (records : List SearchRecord)
    (maxr : Int) (h1 : 1 ≤ maxr) (hM : maxr.toNat < records.length) :
    (includedEntries records maxr).length = maxr.toNat ∧
    (∀ i : Nat, i < maxr.toNat →
      (includedEntries records maxr)[i]? = records[i]?.map fun r => (i + 1, r)) ∧
    (∀ i : Nat, maxr.toNat ≤ i → (includedEntries records maxr)[i]? = none) ∧
    formatContext prov records maxr = formatContext prov (records.take maxr.toNat) maxr ∧
    formatSources prov records maxr = formatSources prov (records.take maxr.toNat) maxr := by
  have h0 : (0 : Int) ≤ maxr := by omega
  have hp : pyTake records maxr = records.take maxr.toNat := by
    rw [pyTake, if_pos h0]
  have hpt : pyTake (records.take maxr.toNat) maxr = records.take maxr.toNat := by
    rw [pyTake, if_pos h0, List.take_take, Nat.min_self]
  have hincl : includedEntries (records.take maxr.toNat) maxr = includedEntries records maxr := by
    rw [includedEntries, includedEntries, hp, hpt]
  refine ⟨?_, ?_, ?_, ?_, ?_⟩
  · rw [includedEntries, hp, List.enumFrom_length, List.length_take]
    exact Nat.min_eq_left (Nat.le_of_lt hM)
  · intro i hi
    rw [includedEntries, hp, List.getElem?_enumFrom, List.getElem?_take_of_lt hi]
    cases records[i]? with
    | none => rfl
    | some r => simp [Nat.add_comm]
  · intro i hi
    apply List.getElem?_eq_none
    rw [includedEntries, hp, List.enumFrom_length, List.length_take]
    omega
  · rw [formatContext, formatContext, hincl]
  · rw [formatSources, formatSources, hincl]

def recsABC : List SearchRecord :=
  [ { title := "tA", url := "uA", content := "cA" },
    { title := "tB", url := "uB", content := "cB" },
    { title := "tC", url := "uC", content := "cC" } ]

/-- Witness for C3 at three records and max_results = 2. -/
theorem C3_first_max_results_witness :
    (includedEntries recsABC 2).length = 2 ∧
    (includedEntries recsABC 2)[0]? =
      some (1, { title := "tA", url := "uA", content := "cA" }) ∧
    (includedEntries recsABC 2)[2]? = none := by
  have h := C3_first_max_results "P" recsABC 2 (by decide) (by decide)
  refine ⟨h.1, ?_, h.2.2.1 2 (by decide)⟩
  rw [h.2.1 0 (by decide)]
  decide

def envNoHits : Env :=
  { fc := fun _ => .error "firecrawl down"
    tavily := fun _ _ => .ok { results := some [] }
    completion := fun _ => .ok "never used" }

/-- C1 counterexample: two invocations in which both adapters yield
zero records return different strings — the diagnostic message
interpolates the query, so it is not the same string for every such
invocation. -/
theorem C1_counterexample :
    (searchWeb envNoHits "query one" 5).1 ≠ (searchWeb envNoHits "query two" 5).1 := by
  decide

/-- C1 amended: when both adapters yield zero records, `search_web`
returns the diagnostic template with the query interpolated (the same
string for every such invocation sharing a query), and the completion
endpoint is never called. -/
theorem C1_diagnostic_path (env : Env) (query : String) (maxr : Int)
    (hfc : fcResultsOf (env.fc query) = [])
    (htav : search_with_tavily (env.tavily query maxr) query maxr = []) :
    (searchWeb env query maxr).1 = .ok (diagMessage query) ∧
    (searchWeb env query maxr).2.completionArgs = [] := by
  have ho := searchOutcome_of_tav env query maxr hfc
  rw [searchWeb, ho]
  rw [htav]
  exact ⟨rfl, rfl⟩

/-- Witness for C1 amended: both providers empty at query "a". -/
theorem C1_diagnostic_path_witness :
    (searchWeb envNoHits "a" 5).1 = .ok (diagMessage "a") ∧
    (searchWeb envNoHits "a" 5).2.completionArgs = [] :=
  C1_diagnostic_path envNoHits "a" 5 (by decide) (by decide)

/-- C4: FireCrawl is always called once with the query alone, and
Tavily is called — once, with the original query and max_results —
exactly when the FireCrawl call raised or produced zero qualifying
hits; in every other case Tavily is not called. -/
theorem C4_fallback_invocation (env : Env) (query : String) (maxr : Int) :
    (searchWeb env query maxr).2.fcArgs = [query] ∧
    ((searchWeb env query maxr).2.tavilyArgs = [(query, maxr)] ↔
      (∃ e, env.fc query = .error e) ∨ fcQualifyingCount (env.fc query) = 0) ∧
    ((searchWeb env query maxr).2.tavilyArgs = [] ↔
      ¬ ((∃ e, env.fc query = .error e) ∨ fcQualifyingCount (env.fc query) = 0)) := by
  obtain ⟨hf, ht⟩ := searchWeb_trace env query maxr
  refine ⟨hf, ?_, ?_⟩ <;> rw [ht, ← fcResultsOf_eq_nil_iff]
  · by_cases h : fcResultsOf (env.fc query) = []
    · rw [searchOutcome_of_tav env query maxr h]
      simp [h]
    · rw [searchOutcome_of_fc env query maxr h]
      simp [h]
  · by_cases h : fcResultsOf (env.fc query) = []
    · rw [searchOutcome_of_tav env query maxr h]
      simp [h]
    · rw [searchOutcome_of_fc env query maxr h]
      simp [h]

/-- C5: for a FireCrawl response holding at least one qualifying hit,
the adapter produces exactly as many records as there are qualifying
hits, and the provenance label is "FireCrawl". -/
theorem C5_primary_adapter (env : Env) (query : String) (maxr : Int)
    (resp : FCResponse) (hits : List Hit)
    (hfc : env.fc query = .ok resp) (hdata : resp.data = some hits)
    (hq : ∃ h ∈ hits, fcQualifies h = true) :
    (searchOutcome env query maxr).results.length = hits.countP fcQualifies ∧
    (searchOutcome env query maxr).search_method_used = "FireCrawl" := by
  have hne : ¬ hits.isEmpty := by
    rw [List.isEmpty_iff]
    rintro rfl
    simp at hq
  have hrec : fcResultsOf (env.fc query) = (hits.filter fcQualifies).map fcExtract := by
    rw [hfc]
    show fcRecords resp = _
    simp only [fcRecords, hdata]
    rw [if_neg hne]
  have hfil : hits.filter fcQualifies ≠ [] := by
    obtain ⟨h, hmem, hqh⟩ := hq
    intro hnil
    have := List.filter_eq_nil_iff.mp hnil h hmem
    simp [hqh] at this
  have hres : fcResultsOf (env.fc query) ≠ [] := by
    rw [hrec]
    simpa using hfil
  rw [searchOutcome_of_fc env query maxr hres, hrec]
  constructor
  · rw [List.length_map, List.countP_eq_length_filter]
  · rfl

def fcRespOneGood : FCResponse :=
  { data := some
      [ { title := some "Paris", url := some "https://x",
          markdown := some "Paris is the capital of France", content := none },
        { title := none, url := none, markdown := none, content := none } ] }

def envFCGood : Env :=
  { fc := fun _ => .ok fcRespOneGood
    tavily := fun _ _ => .error "unused"
    completion := fun _ => .ok "answer" }

/-- Witness for C5: a response with one qualifying and one empty hit. -/
theorem C5_primary_adapter_witness :
    (searchOutcome envFCGood "capital of France" 5).results.length =
      (fcRespOneGood.data.getD []).countP fcQualifies ∧
    (searchOutcome envFCGood "capital of France" 5).search_method_used = "FireCrawl" :=
  C5_primary_adapter envFCGood "capital of France" 5 fcRespOneGood
    (fcRespOneGood.data.getD []) rfl rfl
    ⟨{ title := some "Paris", url := some "https://x",
       markdown := some "Paris is the capital of France", content := none },
     by decide, by decide⟩

/-- The invariant predicate of the claim: some field carries
non-placeholder information (title present, or url present, or content
longer than 10 characters). -/
def nonPlaceholder (r : SearchRecord) : Bool :=
  r.title != "No title" || r.url != "No URL" || r.content.length > 10

/-- C6 counterexample: the Tavily adapter applies no filter, so a hit
with no keys at all is retained as an all-placeholder record. -/
theorem C6_counterexample :
    ((search_with_tavily
        (.ok { results := some [{ title := none, url := none, content := none }] })
        "q" 5).all nonPlaceholder) = false := by
  decide

/-- C6 amended: every record retained by the primary (FireCrawl)
adapter carries non-placeholder information; the fallback adapter
retains all hits unfiltered, so the invariant holds only for the
primary adapter. -/
theorem C6_primary_invariant (resp : FCResponse) (r : SearchRecord)
    (hr : r ∈ fcRecords resp) : nonPlaceholder r = true := by
  cases hd : resp.data with
  | none => simp [fcRecords, hd] at hr
  | some hits =>
    simp only [fcRecords, hd] at hr
    by_cases he : hits.isEmpty
    · rw [if_pos he] at hr
      simp at hr
    · rw [if_neg he] at hr
      obtain ⟨h, hmem, rfl⟩ := List.mem_map.mp hr
      have hq : fcQualifies h = true := (List.mem_filter.mp hmem).2
      simp only [fcQualifies, Bool.or_eq_true, Bool.and_eq_true, bne_iff_ne,
        decide_eq_true_eq] at hq
      simp only [nonPlaceholder, Bool.or_eq_true, bne_iff_ne, decide_eq_true_eq]
      tauto

def fcRespTitled : FCResponse :=
  { data := some [{ title := some "T", url := none, markdown := none, content := none }] }

/-- Witness for C6 amended: a FireCrawl record with only a title. -/
theorem C6_primary_invariant_witness :
    nonPlaceholder { title := "T", url := "No URL", content := "No content" } = true :=
  C6_primary_invariant fcRespTitled _ (by decide)

/-- C7: any exception from a search call is caught and equivalent to
that provider returning zero records, and the result stays `ok`
whenever the completion endpoint answers; an exception from the
completion call propagates out of `search_web` unchanged. -/
theorem C7_exception_asymmetry (env : Env) (query : String) (maxr : Int) :
    (∀ e, env.fc query = .error e →
      searchWeb env query maxr =
        searchWeb { env with fc := fun _ => .ok { data := none } } query maxr) ∧
    (∀ e, env.tavily query maxr = .error e →
      searchWeb env query maxr =
        searchWeb { env with tavily := fun _ _ => .ok { results := some [] } } query maxr) ∧
    (∀ t, (∀ p, env.completion p = .ok t) →
      (searchWeb env query maxr).1.isOk = true) ∧
    (∀ e, (∀ p, env.completion p = .error e) →
      (searchOutcome env query maxr).results ≠ [] →
      (searchWeb env query maxr).1 = .error e) := by
  refine ⟨?_, ?_, ?_, ?_⟩
  · intro e he
    have h1 : fcResultsOf (env.fc query) = [] := by rw [he]; rfl
    have ho : searchOutcome env query maxr =
        searchOutcome { env with fc := fun _ => .ok { data := none } } query maxr := by
      rw [searchOutcome_of_tav env query maxr h1,
          searchOutcome_of_tav { env with fc := fun _ => .ok { data := none } } query maxr rfl]
    rw [searchWeb, searchWeb, ho]
  · intro e he
    by_cases h1 : fcResultsOf (env.fc query) = []
    · have ho : searchOutcome env query maxr =
          searchOutcome { env with tavily := fun _ _ => .ok { results := some [] } } query maxr := by
        rw [searchOutcome_of_tav env query maxr h1,
            searchOutcome_of_tav
              { env with tavily := fun _ _ => .ok { results := some [] } } query maxr h1]
        rw [he]
        rfl
      rw [searchWeb, searchWeb, ho]
    · have ho : searchOutcome env query maxr =
          searchOutcome { env with tavily := fun _ _ => .ok { results := some [] } } query maxr := by
        rw [searchOutcome_of_fc env query maxr h1,
            searchOutcome_of_fc
              { env with tavily := fun _ _ => .ok { results := some [] } } query maxr h1]
      rw [searchWeb, searchWeb, ho]
  · intro t ht
    simp only [searchWeb]
    split
    · rfl
    · simp only [ht]
      rfl
  · intro e he hres
    simp only [searchWeb]
    rw [if_neg (by simpa [List.isEmpty_iff] using hres)]
    simp [he]

def envFaults : Env :=
  { fc := fun _ => .error "fc boom"
    tavily := fun _ _ => .error "tav boom"
    completion := fun _ => .error "completion boom" }

/-- Witness for C7: with both search calls raising, the result is still
`ok` (diagnostic path) when completion answers, and with records
present a completion exception surfaces as the result. -/
theorem C7_exception_asymmetry_witness :
    (searchWeb envFaults "q" 5 =
      searchWeb { envFaults with fc := fun _ => .ok { data := none } } "q" 5) ∧
    (searchWeb envFaults "q" 5 =
      searchWeb { envFaults with tavily := fun _ _ => .ok { results := some [] } } "q" 5) ∧
    (searchWeb { envFaults with completion := fun _ => .ok "fine" } "q" 5).1.isOk = true ∧
    (searchWeb { envFCGood with completion := fun _ => .error "completion boom" } "q" 5).1 =
      .error "completion boom" :=
  ⟨(C7_exception_asymmetry envFaults "q" 5).1 "fc boom" rfl,
   (C7_exception_asymmetry envFaults "q" 5).2.1 "tav boom" rfl,
   (C7_exception_asymmetry _ "q" 5).2.2.1 "fine" (fun _ => rfl),
   (C7_exception_asymmetry _ "q" 5).2.2.2 "completion boom" (fun _ => rfl) (by decide)⟩

/-- C8: on the success path the return value is the completion text
stripped of surrounding whitespace, a blank-line separator, the
"Sources (via {provenance}):" header, and one "[i] {title} - {url}"
line per included record. -/
theorem C8_success_assembly (env : Env) (query : String) (maxr : Int) (t : String)
    (hcomp : ∀ p, env.completion p = .ok t)
    (hres : (searchOutcome env query maxr).results ≠ []) :
    (searchWeb env query maxr).1 =
      .ok (pyStrip t ++
        ("\n\nSources (via " ++ (searchOutcome env query maxr).search_method_used ++ "):\n" ++
          String.join ((includedEntries (searchOutcome env query maxr).results maxr).map
            fun p => "[" ++ toString p.1 ++ "] " ++ p.2.title ++ " - " ++ p.2.url ++ "\n"))) := by
  simp only [searchWeb]
  rw [if_neg (by simpa [List.isEmpty_iff] using hres)]
  simp only [hcomp]
  simp only [formatSources, citationLine]

/-- Witness for C8 at a FireCrawl success with one record. -/
theorem C8_success_assembly_witness :
    (searchWeb envFCGood "q" 5).1 =
      .ok (pyStrip "answer" ++
        ("\n\nSources (via " ++ (searchOutcome envFCGood "q" 5).search_method_used ++ "):\n" ++
          String.join ((includedEntries (searchOutcome envFCGood "q" 5).results 5).map
            fun p => "[" ++ toString p.1 ++ "] " ++ p.2.title ++ " - " ++ p.2.url ++ "\n"))) :=
  C8_success_assembly envFCGood "q" 5 "answer" (fun _ => rfl) (by decide)

/-- C9: whenever any records were produced, the provenance label the
formatter and citation block use is "FireCrawl" or "Tavily"; the
initial "Unknown" never survives to a success-path return. -/
theorem C9_provenance_label (env : Env) (query : String) (maxr : Int)
    (hres : (searchOutcome env query maxr).results ≠ []) :
    (searchOutcome env query maxr).search_method_used = "FireCrawl" ∨
    (searchOutcome env query maxr).search_method_used = "Tavily" := by
  by_cases h : fcResultsOf (env.fc query) = []
  · right
    rw [searchOutcome_of_tav env query maxr h] at hres ⊢
    dsimp only at hres ⊢
    rw [if_neg (by simpa [List.isEmpty_iff] using hres)]
  · left
    rw [searchOutcome_of_fc env query maxr h]

def tavTwoHits : TavResponse :=
  { results := some
      [ { title := some "t1", url := some "u1", content := some "c1" },
        { title := some "t2", url := some "u2", content := some "c2" } ] }

def envTavTwo : Env :=
  { fc := fun _ => .error "down"
    tavily := fun _ _ => .ok tavTwoHits
    completion := fun _ => .ok " ans " }

/-- Witness for C9 at a Tavily fallback success. -/
theorem C9_provenance_label_witness :
    (searchOutcome envTavTwo "q" 5).search_method_used = "FireCrawl" ∨
    (searchOutcome envTavTwo "q" 5).search_method_used = "Tavily" :=
  C9_provenance_label envTavTwo "q" 5 (by decide)

/-- C10 counterexample: at max_results = -1 with two records, the
Python slice `results[:-1]` keeps one record, so the return value
carries one citation line, not zero. -/
theorem C10_counterexample :
    (searchWeb envTavTwo "q" (-1)).1 = .ok "ans\n\nSources (via Tavily):\n[1] t1 - u1\n" ∧
    (searchWeb envTavTwo "q" (-1)).1 ≠ .ok "ans\n\nSources (via Tavily):\n" ∧
    (includedEntries (searchOutcome envTavTwo "q" (-1)).results (-1)).length = 1 := by
  refine ⟨by decide, by decide, by decide⟩

/-- C10 amended: with max_results ≤ 0 and records present, the
diagnostic path is not taken and the completion endpoint is called, but
the number of included entries follows Python slice semantics: zero for
max_results = 0, and M + max_results (clamped at zero) for negative
max_results. -/
theorem C10_nonpositive_max_results (env : Env) (query : String) (t : String)
    (maxr : Int) (hmr : maxr ≤ 0) (hcomp : ∀ p, env.completion p = .ok t)
    (hres : (searchOutcome env query maxr).results ≠ []) :
    (searchWeb env query maxr).2.completionArgs ≠ [] ∧
    (searchWeb env query maxr).1 =
      .ok (pyStrip t ++ formatSources (searchOutcome env query maxr).search_method_used
            (searchOutcome env query maxr).results maxr) ∧
    (includedEntries (searchOutcome env query maxr).results maxr).length =
      (if maxr = 0 then 0
       else (((searchOutcome env query maxr).results.length : Int) + maxr).toNat) := by
  refine ⟨?_, ?_, ?_⟩
  · simp only [searchWeb]
    rw [if_neg (by simpa [List.isEmpty_iff] using hres)]
    simp [hcomp]
  · simp only [searchWeb]
    rw [if_neg (by simpa [List.isEmpty_iff] using hres)]
    simp [hcomp]
  · rw [includedEntries, List.enumFrom_length]
    by_cases h0 : maxr = 0
    · subst h0
      rw [pyTake, if_pos le_rfl]
      simp
    · have hneg : ¬ (0 ≤ maxr) := by omega
      rw [pyTake, if_neg hneg, if_neg h0, List.length_take]
      have hle : (((searchOutcome env query maxr).results.length : Int) + maxr).toNat ≤
          (searchOutcome env query maxr).results.length := by omega
      exact Nat.min_eq_left hle

/-- Witness for C10 amended at max_results = -1 with two records. -/
theorem C10_nonpositive_max_results_witness :
    (searchWeb envTavTwo "q" (-1)).2.completionArgs ≠ [] ∧
    (searchWeb envTavTwo "q" (-1)).1 =
      .ok (pyStrip " ans " ++ formatSources (searchOutcome envTavTwo "q" (-1)).search_method_used
            (searchOutcome envTavTwo "q" (-1)).results (-1)) ∧
    (includedEntries (searchOutcome envTavTwo "q" (-1)).results (-1)).length =
      (if (-1 : Int) = 0 then 0
       else (((searchOutcome envTavTwo "q" (-1)).results.length : Int) + (-1)).toNat) :=
  C10_nonpositive_max_results envTavTwo "q" " ans " (-1) (by decide) (fun _ => rfl) (by decide)
